import Mathlib

/-!
Verification of the quiz/challenge-test scoring and recommendation engine of
the BattleBuddy (Vets2Tech) repository, as a shallow embedding of
`src/core/forms.py` (`ChallengeTestForm`) and `src/core/views.py`
(`cohort_quiz`).

Modelling decisions:
* Python dicts keyed by strings become association lists
  `List (String × α)`; `dict.get(k, d)` and `dict.get(k)` become
  `lookupD` / `getOpt` below (first-match lookup, matching the unique-key
  dicts of the source).
* `random.shuffle(options)` reorders a list in place.  We model one call of
  `ChallengeTestForm.__init__` by an explicit family of shuffle functions
  `sh : Nat → List (String × String) → List (String × String)` (one per
  question position), together with the hypothesis that each `sh i` returns
  a permutation of its input — exactly what `random.shuffle` guarantees.
  Since the source shuffles the very list object stored in the class-level
  `CHALLENGE_QUESTIONS` bank, `build` returns both the constructed session
  and the post-call state of the bank.
* The list comprehension
  `[key for key, value in options if key == correct_answer][0]`
  raises `IndexError` on an empty result; we model it with `Option` and a
  `none` result aborting the construction.
-/

namespace BattleBuddy

/-- One entry `(q_id, question, options, correct_answer)` of the
`CHALLENGE_QUESTIONS` bank of `src/core/forms.py`. -/
structure Question where
  qid : String
  prompt : String
  options : List (String × String)
  correct : String
deriving Repr, DecidableEq

/-- The challenge-question bank: a dict from cohort name to its question
list, modelled as an association list. -/
abbrev Bank := List (String × List Question)

/-- `dict.get(k, default)`: first-match association-list lookup with a
default value. -/
def lookupD (m : List (String × List Question)) (k : String)
    (d : List Question) : List Question :=
  match m with
  | [] => d
  | (k', v) :: rest => if k' == k then v else lookupD rest k d

/-- `dict.get(k)` (returning `None` when absent) for string-valued dicts,
as used on `cleaned_data` in `ChallengeTestForm.evaluate`. -/
def getOpt (m : List (String × String)) (k : String) : Option String :=
  match m with
  | [] => none
  | (k', v) :: rest => if k' == k then some v else getOpt rest k

/-- The class attribute `ChallengeTestForm.CHALLENGE_QUESTIONS`
(src/core/forms.py lines 201–214), transcribed literally. -/
def CHALLENGE_QUESTIONS : Bank :=
  [ ("cloud",
      [ ⟨"q1", "What is serverless computing?",
          [("A", "A cloud computing model"), ("B", "A type of database"),
           ("C", "A security protocol")], "A"⟩,
        ⟨"q2", "Which of these is a popular cloud provider?",
          [("A", "AWS"), ("B", "React"), ("C", "TensorFlow")], "A"⟩ ]),
    ("cybersecurity",
      [ ⟨"q1", "What does a firewall do?",
          [("A", "Prevents unauthorized access"), ("B", "Stores backup files"),
           ("C", "Speeds up network traffic")], "A"⟩,
        ⟨"q2", "Which is an example of multi-factor authentication?",
          [("A", "Password + SMS code"), ("B", "Username only"),
           ("C", "Public WiFi login")], "A"⟩ ]),
    ("server",
      [ ⟨"q1", "What is a virtual machine?",
          [("A", "An emulation of a computer system"),
           ("B", "A programming language"), ("C", "A type of network cable")], "A"⟩,
        ⟨"q2", "Which tool is used for containerization?",
          [("A", "Docker"), ("B", "Photoshop"), ("C", "Microsoft Word")], "A"⟩ ]) ]

/-- The state `ChallengeTestForm.__init__` builds: `self.correct_answers`
(question id → recomputed correct key, in insertion order) and the
dynamically added form fields (question id, label, shuffled choices). -/
structure Session where
  correct_answers : List (String × String)
  fields : List (String × String × List (String × String))
deriving Repr, DecidableEq

/-- A family of per-question shuffles: `sh i` is the permutation
`random.shuffle` applies to the options of the `i`-th question of the
cohort's list during one `__init__` call. -/
abbrev Shuffler := Nat → List (String × String) → List (String × String)

/-- `random.shuffle` only reorders: every `sh i` returns a permutation of
its input. -/
def IsShuffler (sh : Shuffler) : Prop :=
  ∀ i l, List.Perm (sh i l) l

/-- The list comprehension of src/core/forms.py line 231:
`[key for key, value in options if key == correct_answer][0]`, with the
out-of-range `[0]` modelled as `none`. -/
def newCorrectKey (options : List (String × String)) (correct : String) :
    Option String :=
  (List.map Prod.fst (List.filter (fun p => p.1 == correct) options)).head?

/-- The `for q_id, question, options, correct_answer in questions:` loop of
`ChallengeTestForm.__init__` (src/core/forms.py lines 226–239), carrying the
position index that selects each question's shuffle.  Returns the
accumulated `correct_answers` entries and form fields, or `none` when the
line-231 comprehension is empty (Python `IndexError`). -/
def buildLoop (sh : Shuffler) (i : Nat) :
    List Question → Option (List (String × String) × List (String × String × List (String × String)))
  | [] => some ([], [])
  | q :: rest =>
    let opts := sh i q.options
    match newCorrectKey opts q.correct with
    | none => none
    | some k =>
      match buildLoop sh (i + 1) rest with
      | none => none
      | some (ca, fs) =>
        some ((q.qid, k) :: ca, (q.qid, q.prompt, opts) :: fs)

/-- The post-call state of the bank: `random.shuffle` mutated, in place, the
option list of each question of the requested cohort (the same list objects
the bank's tuples hold); everything else is untouched. -/
def shuffledBank (bank : Bank) (cohort : String) (sh : Shuffler) : Bank :=
  List.map
    (fun e =>
      if e.1 == cohort then
        (e.1, List.mapIdx (fun i q => { q with options := sh i q.options }) e.2)
      else e)
    bank

/-- `ChallengeTestForm.__init__(cohort)` (src/core/forms.py lines 216–239):
looks the cohort up in the bank (`.get(cohort, [])`), shuffles each
question's options, recomputes the correct key, and registers the field.
Returns the session (or `none` on the line-231 `IndexError`) together with
the bank as left behind by the in-place shuffles. -/
def build (bank : Bank) (cohort : String) (sh : Shuffler) :
    Option Session × Bank :=
  let questions := lookupD bank cohort []
  (match buildLoop sh 0 questions with
   | none => none
   | some (ca, fs) => some ⟨ca, fs⟩,
   shuffledBank bank cohort sh)

/-- `ChallengeTestForm.evaluate` (src/core/forms.py lines 241–257): walk
`self.correct_answers`, comparing `self.cleaned_data.get(q_id)` with the
stored correct key; return `(score, total)`. -/
def evaluate (correct_answers : List (String × String))
    (cleaned_data : List (String × String)) : Nat × Nat :=
  (List.foldl
     (fun score p => if getOpt cleaned_data p.1 == some p.2 then score + 1 else score)
     0 correct_answers,
   correct_answers.length)

/-- The identity shuffler (a legitimate value of `random.shuffle`'s
behaviour: the identity permutation). -/
def idShuffler : Shuffler := fun _ l => l

/-- A shuffler that swaps the first two options (the transposition
`(0 1)` — another legitimate outcome of `random.shuffle`). -/
def swapShuffler : Shuffler := fun _ l =>
  match l with
  | a :: b :: rest => b :: a :: rest
  | l => l

/-!
The cohort quiz (`cohort_quiz`, src/core/views.py lines 280–323).  A valid
submission binds each of `q1`..`q6` to one of the tags `"Cloud"`,
`"Server"`, `"Cyber"` (the `ChoiceField` validation of `CohortQuizForm`);
`form.cleaned_data.values()` then yields those six tags in field order.  We
model the validated values as a list of six tag strings.
-/

/-- The six values of `form.cleaned_data` for a valid `CohortQuizForm`
submission: six answers, each one of the three cohort tags. -/
def ValidAnswers (answers : List String) : Prop :=
  answers.length = 6 ∧
    ∀ a ∈ answers, a = "Cloud" ∨ a = "Server" ∨ a = "Cyber"

instance (answers : List String) : Decidable (ValidAnswers answers) := by
  unfold ValidAnswers
  infer_instance

/-- `score_cloud = sum(1 for answer in form.cleaned_data.values() if answer == "Cloud")`
(src/core/views.py line 288). -/
def score_cloud (answers : List String) : Nat :=
  List.countP (fun a => a == "Cloud") answers

/-- src/core/views.py line 289. -/
def score_server (answers : List String) : Nat :=
  List.countP (fun a => a == "Server") answers

/-- src/core/views.py line 290. -/
def score_cyber (answers : List String) : Nat :=
  List.countP (fun a => a == "Cyber") answers

/-- `max_score = max(score_cloud, score_server, score_cyber)`
(src/core/views.py line 293). -/
def max_score (answers : List String) : Nat :=
  max (score_cloud answers) (max (score_server answers) (score_cyber answers))

/-- The three fixed cohort display names, in append order
(src/core/views.py lines 297–302). -/
def cloudName : String := "Cloud Application Development"

def serverName : String := "Server & Cloud Applications"

def cyberName : String := "Cybersecurity Administration"

/-- The successive conditional `suggestions.append(...)` calls of
src/core/views.py lines 294–302. -/
def suggestions (answers : List String) : List String :=
  (if score_cloud answers = max_score answers then [cloudName] else []) ++
  (if score_server answers = max_score answers then [serverName] else []) ++
  (if score_cyber answers = max_score answers then [cyberName] else [])

/-- The `suggestion_message` construction of src/core/views.py lines
304–310: an f-string per list length 1, 2, 3; for any other length the
variable is never assigned (a `NameError` at the subsequent use), modelled
as `none`. -/
def suggestionMessage (s : List String) : Option String :=
  match s with
  | [a] => some ("Based on your answers, you should consider the " ++ a ++ " cohort.")
  | [a, b] =>
      some ("Based on your answers, you should consider the " ++ a ++ " and " ++ b ++ " cohorts.")
  | [a, b, c] =>
      some ("Based on your answers, you should consider the " ++ a ++ ", " ++ b ++ ", and " ++ c ++ " cohorts.")
  | _ => none

/-!  Helper notions and lemmas. -/

/-- The bank's designated-correct option entries of a question: the options
whose key is the question's stored `correct_answer`. -/
def correctEntry (q : Question) : List (String × String) :=
  List.filter (fun p => p.1 == q.correct) q.options

/-- A well-formed bank question: exactly one option carries the designated
correct key. -/
def GoodQ (q : Question) : Prop :=
  (correctEntry q).length = 1

instance : DecidablePred GoodQ :=
  fun q => inferInstanceAs (Decidable ((correctEntry q).length = 1))

/-- The observable state a `ChallengeTestForm` instance carries at
`evaluate` time: `self.correct_answers` and `self.cleaned_data`. -/
structure FormState where
  correct_answers : List (String × String)
  cleaned_data : List (String × String)
deriving Repr, DecidableEq

/-- `ChallengeTestForm.evaluate` as a state transformer on the form
instance.  The source's body binds only the locals `score` and `total` and
reads `self.correct_answers` / `self.cleaned_data`; it contains no
assignment to `self`, so the resulting instance state is the input state. -/
def evaluateSt (f : FormState) : (Nat × Nat) × FormState :=
  (evaluate f.correct_answers f.cleaned_data, f)

/-- `sub` occurs as a contiguous substring of `s`. -/
def containsStr (s sub : String) : Prop :=
  ∃ pre post, s = pre ++ sub ++ post

theorem idShuffler_isShuffler : IsShuffler idShuffler :=
  fun _ _ => List.Perm.refl _

theorem swapShuffler_isShuffler : IsShuffler swapShuffler := by
  intro i l
  match l with
  | [] => exact List.Perm.refl _
  | [a] => exact List.Perm.refl _
  | a :: b :: rest => exact List.Perm.swap a b rest

/-- Every question of the shipped `CHALLENGE_QUESTIONS` bank has exactly one
option carrying its designated correct key. -/
theorem bank_good : ∀ e ∈ CHALLENGE_QUESTIONS, ∀ q ∈ e.2, GoodQ q := by
  decide

theorem lookupD_self_or_mem (m : Bank) (k : String) (d : List Question) :
    lookupD m k d = d ∨ (k, lookupD m k d) ∈ m := by
  induction m with
  | nil => exact Or.inl rfl
  | cons e rest ih =>
    by_cases h : e.1 == k
    · right
      have hk : e.1 = k := by simpa using h
      have : lookupD (e :: rest) k d = e.2 := by
        cases e; simp only [lookupD]; rw [if_pos h]
      rw [this, ← hk]
      exact List.mem_cons_self _ _
    · have hstep : lookupD (e :: rest) k d = lookupD rest k d := by
        cases e; simp only [lookupD]; rw [if_neg h]
      rw [hstep]
      rcases ih with h' | h'
      · exact Or.inl h'
      · exact Or.inr (List.mem_cons_of_mem _ h')

theorem lookupD_of_not_mem (m : Bank) (k : String) (d : List Question)
    (h : ∀ v, (k, v) ∉ m) : lookupD m k d = d := by
  rcases lookupD_self_or_mem m k d with h' | h'
  · exact h'
  · exact absurd h' (h _)

/-- Every question a cohort lookup returns from the shipped bank is
well-formed. -/
theorem lookupD_bank_good (cohort : String) :
    ∀ q ∈ lookupD CHALLENGE_QUESTIONS cohort [], GoodQ q := by
  rcases lookupD_self_or_mem CHALLENGE_QUESTIONS cohort [] with h | h
  · rw [h]; intro q hq; cases hq
  · exact bank_good _ h

/-- On the shipped bank (whose cohort keys are distinct), lookup of a
present key returns that key's question list. -/
theorem lookupD_of_mem_bank (cohort : String) (qs : List Question)
    (h : (cohort, qs) ∈ CHALLENGE_QUESTIONS) :
    lookupD CHALLENGE_QUESTIONS cohort [] = qs := by
  simp only [CHALLENGE_QUESTIONS, List.mem_cons, List.not_mem_nil, or_false,
    Prod.mk.injEq] at h
  rcases h with ⟨h1, h2⟩ | ⟨h1, h2⟩ | ⟨h1, h2⟩ <;> subst h1 <;> subst h2 <;> decide

/-- `dict.get` is first-match: it returns the head of the matching
entries. -/
theorem getOpt_eq_filterHead (m : List (String × String)) (k : String) :
    getOpt m k = Option.map Prod.snd (List.filter (fun p => p.1 == k) m).head? := by
  induction m with
  | nil => rfl
  | cons e rest ih =>
    by_cases h : e.1 == k
    · cases e
      simp only [getOpt, List.filter]
      rw [if_pos h, h]
      rfl
    · cases e
      simp only [getOpt, List.filter]
      rw [if_neg h]
      simp only [Bool.not_eq_true] at h
      rw [h]
      exact ih

/-- Filtering commutes with permutation; a singleton filter result is
therefore invariant under any shuffle. -/
theorem filter_perm_singleton {opts opts' : List (String × String)}
    {c : String} {x : String × String} (h : List.Perm opts' opts)
    (hx : List.filter (fun p => p.1 == c) opts = [x]) :
    List.filter (fun p => p.1 == c) opts' = [x] :=
  List.perm_singleton.mp (hx ▸ h.filter (fun p => p.1 == c))

/-- A well-formed question's designated-correct entry is the pair
`(correct key, designated text)`. -/
theorem correctEntry_shape (q : Question) (h : GoodQ q) :
    ∃ t, correctEntry q = [(q.correct, t)] := by
  obtain ⟨a, ha⟩ := List.length_eq_one.mp h
  have hmem : a ∈ correctEntry q := by rw [ha]; exact List.mem_singleton.mpr rfl
  have hkey : (fun p : String × String => p.1 == q.correct) a = true := by
    have := List.mem_filter.mp (show a ∈ List.filter (fun p => p.1 == q.correct) q.options from hmem)
    exact this.2
  have hkey' : a.1 = q.correct := by simpa using hkey
  exact ⟨a.2, by rw [ha, ← hkey']⟩

theorem newCorrectKey_of_filter {opts : List (String × String)} {c t : String}
    (h : List.filter (fun p => p.1 == c) opts = [(c, t)]) :
    newCorrectKey opts c = some c := by
  simp [newCorrectKey, h]

/-- Full characterization of the `__init__` question loop on well-formed
questions: it never fails, the answer key records each question's original
correct key, and each field carries the question's id and prompt together
with a shuffled option list whose designated-correct entry is untouched. -/
theorem buildLoop_spec (sh : Shuffler) (hsh : IsShuffler sh) :
    ∀ (qs : List Question) (i : Nat), (∀ q ∈ qs, GoodQ q) →
      ∃ fs, buildLoop sh i qs = some (List.map (fun q => (q.qid, q.correct)) qs, fs) ∧
        List.Forall₂
          (fun q f => GoodQ q ∧ f.1 = q.qid ∧ f.2.1 = q.prompt ∧
            List.Perm f.2.2 q.options ∧
            List.filter (fun p => p.1 == q.correct) f.2.2 = correctEntry q)
          qs fs := by
  intro qs
  induction qs with
  | nil =>
    intro i _
    exact ⟨[], rfl, List.Forall₂.nil⟩
  | cons q rest ih =>
    intro i hgood
    obtain ⟨t, ht⟩ := correctEntry_shape q (hgood q (List.mem_cons_self _ _))
    have hfilter : List.filter (fun p => p.1 == q.correct) (sh i q.options)
        = [(q.correct, t)] := by
      have := filter_perm_singleton (hsh i q.options) (show List.filter (fun p => p.1 == q.correct) q.options = [(q.correct, t)] from ht)
      exact this
    obtain ⟨fs, hrec, hforall⟩ :=
      ih (i + 1) (fun q' hq' => hgood q' (List.mem_cons_of_mem _ hq'))
    refine ⟨(q.qid, q.prompt, sh i q.options) :: fs, ?_, ?_⟩
    · simp only [buildLoop, newCorrectKey_of_filter hfilter, hrec, List.map]
    · exact List.Forall₂.cons
        ⟨hgood q (List.mem_cons_self _ _), rfl, rfl, hsh i q.options,
          hfilter.trans ht.symm⟩ hforall

/-- Pair a `Forall₂` on the loop's fields with the answer key produced by
the same loop. -/
theorem forall2_zip_map {α β γ : Type} (g : α → γ) (Q : α → β → Prop)
    (P : α → γ × β → Prop) (hpq : ∀ a b, Q a b → P a (g a, b)) :
    ∀ {xs : List α} {ys : List β}, List.Forall₂ Q xs ys →
      List.Forall₂ P xs ((List.map g xs).zip ys) := by
  intro xs ys h
  induction h with
  | nil => exact List.Forall₂.nil
  | cons ha _ ihtail => exact List.Forall₂.cons (hpq _ _ ha) ihtail

/-- The in-place shuffle of every question of one cohort preserves each
question's id, prompt and correct key, and permutes its options. -/
theorem mapIdx_shuffle_spec (qs : List Question) :
    ∀ (sh : Shuffler), IsShuffler sh →
      List.Forall₂
        (fun q q' => q'.qid = q.qid ∧ q'.prompt = q.prompt ∧
          q'.correct = q.correct ∧ List.Perm q'.options q.options)
        qs (List.mapIdx (fun i q => { q with options := sh i q.options }) qs) := by
  induction qs with
  | nil => intro sh _; exact List.Forall₂.nil
  | cons q rest ih =>
    intro sh hsh
    rw [List.mapIdx_cons]
    exact List.Forall₂.cons ⟨rfl, rfl, rfl, hsh 0 q.options⟩
      (ih (fun i l => sh (i + 1) l) (fun i l => hsh (i + 1) l))

/-- The counting loop of `evaluate` is a `countP`. -/
theorem foldl_count (p : String × String → Bool) :
    ∀ (l : List (String × String)) (n : Nat),
      List.foldl (fun score e => if p e then score + 1 else score) n l
        = n + List.countP p l := by
  intro l
  induction l with
  | nil => intro n; simp
  | cons e rest ih =>
    intro n
    simp only [List.foldl, ih, List.countP_cons]
    by_cases h : p e
    · rw [if_pos h, h]
      simp
      omega
    · rw [if_neg h, Bool.not_eq_true] at *
      rw [h]
      simp

theorem evaluate_score_eq (ca cd : List (String × String)) :
    (evaluate ca cd).1 = List.countP (fun p => getOpt cd p.1 == some p.2) ca := by
  have := foldl_count (fun p => getOpt cd p.1 == some p.2) ca 0
  simpa [evaluate] using this

/-- For answers drawn from the three tags, the three tallies partition the
answer list. -/
theorem counts_sum (answers : List String)
    (h : ∀ a ∈ answers, a = "Cloud" ∨ a = "Server" ∨ a = "Cyber") :
    score_cloud answers + score_server answers + score_cyber answers
      = answers.length := by
  induction answers with
  | nil => rfl
  | cons a rest ih =>
    have ha := h a (List.mem_cons_self _ _)
    have hrest := ih (fun x hx => h x (List.mem_cons_of_mem _ hx))
    simp only [score_cloud, score_server, score_cyber, List.countP_cons,
      List.length_cons] at hrest ⊢
    rcases ha with ha | ha | ha <;> subst ha <;> simp <;> omega

/-- `max(a, max(b, c))` is attained by one of its arguments. -/
theorem max_score_attained (answers : List String) :
    max_score answers = score_cloud answers ∨
      max_score answers = score_server answers ∨
      max_score answers = score_cyber answers := by
  unfold max_score
  rcases max_choice (score_cloud answers)
      (max (score_server answers) (score_cyber answers)) with h | h
  · exact Or.inl h
  · rcases max_choice (score_server answers) (score_cyber answers) with h' | h'
    · exact Or.inr (Or.inl (h.trans h'))
    · exact Or.inr (Or.inr (h.trans h'))

/-!  Claim theorems. -/

/-- C1: for every cohort, after `ChallengeTestForm.__init__` shuffles a
question's options (any permutation `random.shuffle` may produce), the
answer key records, for that question, an option key that carries the
option text originally designated correct, so the correct option's
displayed text in the session equals the bank's designated correct text. -/
theorem build_records_key_of_correct_text (cohort : String) (sh : Shuffler)
    (hsh : IsShuffler sh) :
    ∃ s, (build CHALLENGE_QUESTIONS cohort sh).1 = some s ∧
      List.Forall₂
        (fun q e =>
          e.1.1 = q.qid ∧ e.2.1 = q.qid ∧
          ∃ t, getOpt q.options q.correct = some t ∧ getOpt e.2.2.2 e.1.2 = some t)
        (lookupD CHALLENGE_QUESTIONS cohort [])
        (List.zip s.correct_answers s.fields) := by
  obtain ⟨fs, hloop, hforall⟩ :=
    buildLoop_spec sh hsh (lookupD CHALLENGE_QUESTIONS cohort []) 0
      (lookupD_bank_good cohort)
  refine ⟨⟨List.map (fun q => (q.qid, q.correct)) (lookupD CHALLENGE_QUESTIONS cohort []), fs⟩,
    ?_, ?_⟩
  · simp [build, hloop]
  · refine forall2_zip_map (fun q => (q.qid, q.correct)) _ _ ?_ hforall
    intro q f hf
    obtain ⟨hg, hqid, _hlabel, _hperm, hfil⟩ := hf
    obtain ⟨t, ht⟩ := correctEntry_shape q hg
    refine ⟨rfl, hqid, t, ?_, ?_⟩
    · rw [getOpt_eq_filterHead]
      show Option.map Prod.snd (correctEntry q).head? = some t
      rw [ht]
      rfl
    · show getOpt f.2.2 q.correct = some t
      rw [getOpt_eq_filterHead, hfil, ht]
      rfl

/-- Witness for C1: the `"cloud"` cohort with the identity permutation. -/
theorem build_records_key_of_correct_text_witness :
    IsShuffler idShuffler ∧
    (∃ s, (build CHALLENGE_QUESTIONS "cloud" idShuffler).1 = some s ∧
      List.Forall₂
        (fun q e =>
          e.1.1 = q.qid ∧ e.2.1 = q.qid ∧
          ∃ t, getOpt q.options q.correct = some t ∧ getOpt e.2.2.2 e.1.2 = some t)
        (lookupD CHALLENGE_QUESTIONS "cloud" [])
        (List.zip s.correct_answers s.fields)) :=
  ⟨idShuffler_isShuffler,
   build_records_key_of_correct_text "cloud" idShuffler idShuffler_isShuffler⟩

/-- C2, counterexample: `__init__` does *not* leave the static
`CHALLENGE_QUESTIONS` bank unchanged — `random.shuffle` reorders, in place,
the very option lists the bank holds.  The swap permutation on the
`"cloud"` cohort changes the bank's option sequences. -/
theorem build_bank_unchanged_counterexample :
    ¬ ∀ (cohort : String) (sh : Shuffler), IsShuffler sh →
        (build CHALLENGE_QUESTIONS cohort sh).2 = CHALLENGE_QUESTIONS := by
  intro hall
  have h := hall "cloud" swapShuffler swapShuffler_isShuffler
  have hne : (build CHALLENGE_QUESTIONS "cloud" swapShuffler).2
      ≠ CHALLENGE_QUESTIONS := by decide
  exact hne h

/-- C2, amended: a call of `__init__` permutes, in place, the option
sequences of the requested cohort's questions inside the bank; the bank
keeps the same cohorts in the same order, every question keeps its id,
prompt and designated correct key, and every option list afterwards is a
permutation (the same `(key, text)` pairs, possibly reordered) of its
previous value — but the sequences themselves may change. -/
theorem build_bank_permuted_in_place (cohort : String) (sh : Shuffler)
    (hsh : IsShuffler sh) :
    List.Forall₂
      (fun e e' => e'.1 = e.1 ∧
        List.Forall₂
          (fun q q' => q'.qid = q.qid ∧ q'.prompt = q.prompt ∧
            q'.correct = q.correct ∧ List.Perm q'.options q.options)
          e.2 e'.2)
      CHALLENGE_QUESTIONS ((build CHALLENGE_QUESTIONS cohort sh).2) := by
  show List.Forall₂ _ CHALLENGE_QUESTIONS (shuffledBank CHALLENGE_QUESTIONS cohort sh)
  rw [shuffledBank, List.forall₂_map_right_iff, List.forall₂_same]
  intro e _he
  by_cases h : e.1 == cohort
  · rw [if_pos h]
    exact ⟨rfl, mapIdx_shuffle_spec e.2 sh hsh⟩
  · rw [if_neg h]
    refine ⟨rfl, ?_⟩
    rw [List.forall₂_same]
    intro q _
    exact ⟨rfl, rfl, rfl, List.Perm.refl _⟩

/-- Witness for the amended C2: the swap permutation on `"cloud"`. -/
theorem build_bank_permuted_in_place_witness :
    List.Forall₂
      (fun e e' => e'.1 = e.1 ∧
        List.Forall₂
          (fun q q' => q'.qid = q.qid ∧ q'.prompt = q.prompt ∧
            q'.correct = q.correct ∧ List.Perm q'.options q.options)
          e.2 e'.2)
      CHALLENGE_QUESTIONS ((build CHALLENGE_QUESTIONS "cloud" swapShuffler).2) :=
  build_bank_permuted_in_place "cloud" swapShuffler swapShuffler_isShuffler

/-- C3: for every valid six-answer input, the suggestions list of
`cohort_quiz` is non-empty, has length 1, 2 or 3, contains each cohort name
exactly when that cohort's tally equals the maximum tally, and lists the
tied cohorts in the fixed order Cloud, Server, Cyber. -/
theorem cohort_quiz_suggestions_spec (answers : List String)
    (_h : ValidAnswers answers) :
    suggestions answers ≠ [] ∧
    ((suggestions answers).length = 1 ∨ (suggestions answers).length = 2 ∨
      (suggestions answers).length = 3) ∧
    (cloudName ∈ suggestions answers ↔ score_cloud answers = max_score answers) ∧
    (serverName ∈ suggestions answers ↔ score_server answers = max_score answers) ∧
    (cyberName ∈ suggestions answers ↔ score_cyber answers = max_score answers) ∧
    List.Sublist (suggestions answers) [cloudName, serverName, cyberName] := by
  by_cases hc : score_cloud answers = max_score answers <;>
  by_cases hs : score_server answers = max_score answers <;>
  by_cases hy : score_cyber answers = max_score answers
  · refine ⟨?_, ?_, ?_, ?_, ?_, ?_⟩ <;>
      simp [suggestions, hc, hs, hy, cloudName, serverName, cyberName]
  · refine ⟨?_, ?_, ?_, ?_, ?_, ?_⟩ <;>
      simp [suggestions, hc, hs, hy, cloudName, serverName, cyberName]
  · refine ⟨?_, ?_, ?_, ?_, ?_, ?_⟩ <;>
      simp [suggestions, hc, hs, hy, cloudName, serverName, cyberName]
  · refine ⟨?_, ?_, ?_, ?_, ?_, ?_⟩ <;>
      simp [suggestions, hc, hs, hy, cloudName, serverName, cyberName]
  · refine ⟨?_, ?_, ?_, ?_, ?_, ?_⟩ <;>
      simp [suggestions, hc, hs, hy, cloudName, serverName, cyberName]
  · refine ⟨?_, ?_, ?_, ?_, ?_, ?_⟩ <;>
      simp [suggestions, hc, hs, hy, cloudName, serverName, cyberName]
  · refine ⟨?_, ?_, ?_, ?_, ?_, ?_⟩ <;>
      simp [suggestions, hc, hs, hy, cloudName, serverName, cyberName]
  · rcases max_score_attained answers with h | h | h
    · exact absurd h.symm hc
    · exact absurd h.symm hs
    · exact absurd h.symm hy

/-- Witness for C3: a three-way tie (2/2/2 split). -/
theorem cohort_quiz_suggestions_spec_witness :
    ValidAnswers ["Cloud", "Cloud", "Server", "Server", "Cyber", "Cyber"] ∧
    (suggestions ["Cloud", "Cloud", "Server", "Server", "Cyber", "Cyber"] ≠ [] ∧
     ((suggestions ["Cloud", "Cloud", "Server", "Server", "Cyber", "Cyber"]).length = 1 ∨
      (suggestions ["Cloud", "Cloud", "Server", "Server", "Cyber", "Cyber"]).length = 2 ∨
      (suggestions ["Cloud", "Cloud", "Server", "Server", "Cyber", "Cyber"]).length = 3) ∧
     (cloudName ∈ suggestions ["Cloud", "Cloud", "Server", "Server", "Cyber", "Cyber"] ↔
       score_cloud ["Cloud", "Cloud", "Server", "Server", "Cyber", "Cyber"]
         = max_score ["Cloud", "Cloud", "Server", "Server", "Cyber", "Cyber"]) ∧
     (serverName ∈ suggestions ["Cloud", "Cloud", "Server", "Server", "Cyber", "Cyber"] ↔
       score_server ["Cloud", "Cloud", "Server", "Server", "Cyber", "Cyber"]
         = max_score ["Cloud", "Cloud", "Server", "Server", "Cyber", "Cyber"]) ∧
     (cyberName ∈ suggestions ["Cloud", "Cloud", "Server", "Server", "Cyber", "Cyber"] ↔
       score_cyber ["Cloud", "Cloud", "Server", "Server", "Cyber", "Cyber"]
         = max_score ["Cloud", "Cloud", "Server", "Server", "Cyber", "Cyber"]) ∧
     List.Sublist (suggestions ["Cloud", "Cloud", "Server", "Server", "Cyber", "Cyber"])
       [cloudName, serverName, cyberName]) :=
  ⟨by decide,
   cohort_quiz_suggestions_spec ["Cloud", "Cloud", "Server", "Server", "Cyber", "Cyber"]
     (by decide)⟩

/-- C4: `evaluate` returns a score counting the answer-key entries whose
submitted value equals the stored correct key, and a total equal to the
number of questions; omitted ids count as incorrect (they fail the
comparison), submitted ids outside the session do not affect the result,
and the score never exceeds the total. -/
theorem evaluate_spec (ca cd : List (String × String)) :
    (evaluate ca cd).1 = List.countP (fun p => getOpt cd p.1 == some p.2) ca ∧
    (evaluate ca cd).2 = ca.length ∧
    (evaluate ca cd).1 ≤ (evaluate ca cd).2 ∧
    ∀ cd' : List (String × String),
      (∀ p ∈ ca, getOpt cd' p.1 = getOpt cd p.1) → evaluate ca cd' = evaluate ca cd := by
  refine ⟨evaluate_score_eq ca cd, rfl, ?_, ?_⟩
  · rw [evaluate_score_eq]
    exact List.countP_le_length _
  · intro cd' hagree
    have h1 : (evaluate ca cd').1 = (evaluate ca cd).1 := by
      rw [evaluate_score_eq, evaluate_score_eq]
      refine List.countP_congr ?_
      intro p hp
      rw [hagree p hp]
    have h2 : (evaluate ca cd').2 = (evaluate ca cd).2 := rfl
    exact Prod.ext h1 h2

/-- Witness for C4: a two-question key, one matching answer, one extra
submitted id that changes nothing. -/
theorem evaluate_spec_witness :
    evaluate [("q1", "A"), ("q2", "A")] [("q1", "A"), ("q9", "B")]
        = evaluate [("q1", "A"), ("q2", "A")] [("q1", "A")] ∧
    evaluate [("q1", "A"), ("q2", "A")] [("q1", "A")] = (1, 2) :=
  ⟨(evaluate_spec [("q1", "A"), ("q2", "A")] [("q1", "A")]).2.2.2
      [("q1", "A"), ("q9", "B")] (by decide),
   by decide⟩

/-- C5: for a cohort string that is not a key of the question bank,
`__init__` produces a session with zero questions and an empty answer key
without raising, and `evaluate` on that empty session returns `(0, 0)`. -/
theorem build_unknown_cohort_empty (cohort : String) (sh : Shuffler)
    (h : cohort ∉ List.map Prod.fst CHALLENGE_QUESTIONS) :
    (build CHALLENGE_QUESTIONS cohort sh).1 = some ⟨[], []⟩ ∧
    ∀ cd, evaluate (Session.mk [] []).correct_answers cd = (0, 0) := by
  have hnm : ∀ v, (cohort, v) ∉ CHALLENGE_QUESTIONS := by
    intro v hv
    exact h (List.mem_map_of_mem Prod.fst hv)
  have hlk := lookupD_of_not_mem CHALLENGE_QUESTIONS cohort [] hnm
  constructor
  · simp [build, hlk, buildLoop]
  · intro cd
    rfl

/-- Witness for C5: the cohort `"nonexistent"`. -/
theorem build_unknown_cohort_empty_witness :
    (build CHALLENGE_QUESTIONS "nonexistent" idShuffler).1 = some ⟨[], []⟩ ∧
    evaluate (Session.mk [] []).correct_answers [("q1", "A")] = (0, 0) := by
  obtain ⟨h1, h2⟩ := build_unknown_cohort_empty "nonexistent" idShuffler (by decide)
  exact ⟨h1, h2 _⟩

/-- C6: the recommendation sentence of `cohort_quiz` follows the join
grammar — with one tied cohort it contains `"the X cohort"`, with two
`"the X and Y cohorts"`, with three `"the X, Y, and Z cohorts"`, the
cohorts appearing in the fixed order Cloud, Server, Cyber. -/
theorem cohort_quiz_message_grammar (answers : List String)
    (_h : ValidAnswers answers) :
    ∃ msg, suggestionMessage (suggestions answers) = some msg ∧
      ((suggestions answers = [cloudName] ∧
          containsStr msg ("the " ++ cloudName ++ " cohort")) ∨
       (suggestions answers = [serverName] ∧
          containsStr msg ("the " ++ serverName ++ " cohort")) ∨
       (suggestions answers = [cyberName] ∧
          containsStr msg ("the " ++ cyberName ++ " cohort")) ∨
       (suggestions answers = [cloudName, serverName] ∧
          containsStr msg ("the " ++ cloudName ++ " and " ++ serverName ++ " cohorts")) ∨
       (suggestions answers = [cloudName, cyberName] ∧
          containsStr msg ("the " ++ cloudName ++ " and " ++ cyberName ++ " cohorts")) ∨
       (suggestions answers = [serverName, cyberName] ∧
          containsStr msg ("the " ++ serverName ++ " and " ++ cyberName ++ " cohorts")) ∨
       (suggestions answers = [cloudName, serverName, cyberName] ∧
          containsStr msg
            ("the " ++ cloudName ++ ", " ++ serverName ++ ", and " ++ cyberName ++ " cohorts"))) := by
  by_cases hc : score_cloud answers = max_score answers <;>
  by_cases hs : score_server answers = max_score answers <;>
  by_cases hy : score_cyber answers = max_score answers
  · have he : suggestions answers = [cloudName, serverName, cyberName] := by
      simp [suggestions, hc, hs, hy]
    exact ⟨_, by rw [he]; rfl, Or.inr (Or.inr (Or.inr (Or.inr (Or.inr (Or.inr
      ⟨he, "Based on your answers, you should consider ", ".", by decide⟩)))))⟩
  · have he : suggestions answers = [cloudName, serverName] := by
      simp [suggestions, hc, hs, hy]
    exact ⟨_, by rw [he]; rfl, Or.inr (Or.inr (Or.inr (Or.inl
      ⟨he, "Based on your answers, you should consider ", ".", by decide⟩)))⟩
  · have he : suggestions answers = [cloudName, cyberName] := by
      simp [suggestions, hc, hs, hy]
    exact ⟨_, by rw [he]; rfl, Or.inr (Or.inr (Or.inr (Or.inr (Or.inl
      ⟨he, "Based on your answers, you should consider ", ".", by decide⟩))))⟩
  · have he : suggestions answers = [cloudName] := by
      simp [suggestions, hc, hs, hy]
    exact ⟨_, by rw [he]; rfl, Or.inl
      ⟨he, "Based on your answers, you should consider ", ".", by decide⟩⟩
  · have he : suggestions answers = [serverName, cyberName] := by
      simp [suggestions, hc, hs, hy]
    exact ⟨_, by rw [he]; rfl, Or.inr (Or.inr (Or.inr (Or.inr (Or.inr (Or.inl
      ⟨he, "Based on your answers, you should consider ", ".", by decide⟩)))))⟩
  · have he : suggestions answers = [serverName] := by
      simp [suggestions, hc, hs, hy]
    exact ⟨_, by rw [he]; rfl, Or.inr (Or.inl
      ⟨he, "Based on your answers, you should consider ", ".", by decide⟩)⟩
  · have he : suggestions answers = [cyberName] := by
      simp [suggestions, hc, hs, hy]
    exact ⟨_, by rw [he]; rfl, Or.inr (Or.inr (Or.inl
      ⟨he, "Based on your answers, you should consider ", ".", by decide⟩))⟩
  · rcases max_score_attained answers with h | h | h
    · exact absurd h.symm hc
    · exact absurd h.symm hs
    · exact absurd h.symm hy

/-- Witness for C6: a two-way Cloud/Server tie (3/3/0 split). -/
theorem cohort_quiz_message_grammar_witness :
    ValidAnswers ["Cloud", "Cloud", "Cloud", "Server", "Server", "Server"] ∧
    ∃ msg,
      suggestionMessage
          (suggestions ["Cloud", "Cloud", "Cloud", "Server", "Server", "Server"])
        = some msg ∧
      ((suggestions ["Cloud", "Cloud", "Cloud", "Server", "Server", "Server"] = [cloudName] ∧
          containsStr msg ("the " ++ cloudName ++ " cohort")) ∨
       (suggestions ["Cloud", "Cloud", "Cloud", "Server", "Server", "Server"] = [serverName] ∧
          containsStr msg ("the " ++ serverName ++ " cohort")) ∨
       (suggestions ["Cloud", "Cloud", "Cloud", "Server", "Server", "Server"] = [cyberName] ∧
          containsStr msg ("the " ++ cyberName ++ " cohort")) ∨
       (suggestions ["Cloud", "Cloud", "Cloud", "Server", "Server", "Server"]
            = [cloudName, serverName] ∧
          containsStr msg ("the " ++ cloudName ++ " and " ++ serverName ++ " cohorts")) ∨
       (suggestions ["Cloud", "Cloud", "Cloud", "Server", "Server", "Server"]
            = [cloudName, cyberName] ∧
          containsStr msg ("the " ++ cloudName ++ " and " ++ cyberName ++ " cohorts")) ∨
       (suggestions ["Cloud", "Cloud", "Cloud", "Server", "Server", "Server"]
            = [serverName, cyberName] ∧
          containsStr msg ("the " ++ serverName ++ " and " ++ cyberName ++ " cohorts")) ∨
       (suggestions ["Cloud", "Cloud", "Cloud", "Server", "Server", "Server"]
            = [cloudName, serverName, cyberName] ∧
          containsStr msg
            ("the " ++ cloudName ++ ", " ++ serverName ++ ", and " ++ cyberName ++ " cohorts"))) :=
  ⟨by decide,
   cohort_quiz_message_grammar ["Cloud", "Cloud", "Cloud", "Server", "Server", "Server"]
     (by decide)⟩

/-- C7: for every valid six-answer input, the three tallies of
`cohort_quiz` sum to 6, and each tally is non-negative. -/
theorem cohort_quiz_tally_sum (answers : List String) (h : ValidAnswers answers) :
    score_cloud answers + score_server answers + score_cyber answers = 6 ∧
    0 ≤ score_cloud answers ∧ 0 ≤ score_server answers ∧ 0 ≤ score_cyber answers := by
  obtain ⟨hlen, htags⟩ := h
  exact ⟨(counts_sum answers htags).trans hlen, Nat.zero_le _, Nat.zero_le _,
    Nat.zero_le _⟩

/-- Witness for C7: a 3/2/1 split. -/
theorem cohort_quiz_tally_sum_witness :
    ValidAnswers ["Cloud", "Cloud", "Cloud", "Server", "Server", "Cyber"] ∧
    score_cloud ["Cloud", "Cloud", "Cloud", "Server", "Server", "Cyber"]
        + score_server ["Cloud", "Cloud", "Cloud", "Server", "Server", "Cyber"]
        + score_cyber ["Cloud", "Cloud", "Cloud", "Server", "Server", "Cyber"] = 6 ∧
    0 ≤ score_cloud ["Cloud", "Cloud", "Cloud", "Server", "Server", "Cyber"] ∧
    0 ≤ score_server ["Cloud", "Cloud", "Cloud", "Server", "Server", "Cyber"] ∧
    0 ≤ score_cyber ["Cloud", "Cloud", "Cloud", "Server", "Server", "Cyber"] :=
  ⟨by decide,
   cohort_quiz_tally_sum ["Cloud", "Cloud", "Cloud", "Server", "Server", "Cyber"]
     (by decide)⟩

/-- C8: `evaluate` is pure and idempotent — it leaves the form state
unchanged, and running it again on the state it leaves behind yields the
same `(score, total)` and again the original state. -/
theorem evaluate_pure_idempotent (f : FormState) :
    (evaluateSt f).2 = f ∧
    (evaluateSt ((evaluateSt f).2)).1 = (evaluateSt f).1 ∧
    (evaluateSt ((evaluateSt f).2)).2 = f :=
  ⟨rfl, rfl, rfl⟩

/-- C9: for every cohort present in the bank, the session built by
`__init__` has exactly one form field and one answer-key entry per bank
question of that cohort. -/
theorem build_question_count (cohort : String) (qs : List Question)
    (sh : Shuffler) (hsh : IsShuffler sh)
    (hmem : (cohort, qs) ∈ CHALLENGE_QUESTIONS) :
    ∃ s, (build CHALLENGE_QUESTIONS cohort sh).1 = some s ∧
      s.fields.length = qs.length ∧ s.correct_answers.length = qs.length := by
  have hlk := lookupD_of_mem_bank cohort qs hmem
  obtain ⟨fs, hloop, hforall⟩ :=
    buildLoop_spec sh hsh (lookupD CHALLENGE_QUESTIONS cohort []) 0
      (lookupD_bank_good cohort)
  refine ⟨⟨List.map (fun q => (q.qid, q.correct)) (lookupD CHALLENGE_QUESTIONS cohort []), fs⟩,
    by simp [build, hloop], ?_, ?_⟩
  · show fs.length = qs.length
    rw [← hforall.length_eq, hlk]
  · show (List.map (fun q => (q.qid, q.correct))
        (lookupD CHALLENGE_QUESTIONS cohort [])).length = qs.length
    rw [List.length_map, hlk]

/-- Witness for C9: the `"server"` cohort and its two bank questions. -/
theorem build_question_count_witness :
    ∃ s, (build CHALLENGE_QUESTIONS "server" idShuffler).1 = some s ∧
      s.fields.length
          = (lookupD CHALLENGE_QUESTIONS "server" []).length ∧
      s.correct_answers.length
          = (lookupD CHALLENGE_QUESTIONS "server" []).length :=
  build_question_count "server" (lookupD CHALLENGE_QUESTIONS "server" [])
    idShuffler idShuffler_isShuffler (by decide)

/-- C10 (implicit): because `random.shuffle` permutes the `(key, text)`
pairs as indivisible units, the recomputed correct key equals the bank's
original designated key for every question, the singleton lookup finds
exactly one match, and session construction cannot fail on the shipped
bank. -/
theorem shuffle_preserves_correct_key (cohort : String) (sh : Shuffler)
    (hsh : IsShuffler sh) :
    ∃ s, (build CHALLENGE_QUESTIONS cohort sh).1 = some s ∧
      s.correct_answers =
        List.map (fun q => (q.qid, q.correct))
          (lookupD CHALLENGE_QUESTIONS cohort []) ∧
      List.Forall₂
        (fun q f => List.Perm f.2.2 q.options ∧
          (List.filter (fun p => p.1 == q.correct) f.2.2).length = 1)
        (lookupD CHALLENGE_QUESTIONS cohort []) s.fields := by
  obtain ⟨fs, hloop, hforall⟩ :=
    buildLoop_spec sh hsh (lookupD CHALLENGE_QUESTIONS cohort []) 0
      (lookupD_bank_good cohort)
  refine ⟨⟨List.map (fun q => (q.qid, q.correct)) (lookupD CHALLENGE_QUESTIONS cohort []), fs⟩,
    by simp [build, hloop], rfl, ?_⟩
  refine hforall.imp ?_
  intro q f hf
  obtain ⟨hg, _, _, hperm, hfil⟩ := hf
  exact ⟨hperm, by rw [hfil]; exact hg⟩

/-- Witness for C10: the `"cybersecurity"` cohort with the swap
permutation. -/
theorem shuffle_preserves_correct_key_witness :
    ∃ s, (build CHALLENGE_QUESTIONS "cybersecurity" swapShuffler).1 = some s ∧
      s.correct_answers =
        List.map (fun q => (q.qid, q.correct))
          (lookupD CHALLENGE_QUESTIONS "cybersecurity" []) ∧
      List.Forall₂
        (fun q f => List.Perm f.2.2 q.options ∧
          (List.filter (fun p => p.1 == q.correct) f.2.2).length = 1)
        (lookupD CHALLENGE_QUESTIONS "cybersecurity" []) s.fields :=
  shuffle_preserves_correct_key "cybersecurity" swapShuffler
    swapShuffler_isShuffler

end BattleBuddy
